import Mathlib

/-
Verification development for the textext repository.

Shallow embedding of:
  * the preamble normalizer `TexToPdfConverter._remove_documentclass`
    (implementation file absent from the sources; modelled from the spec,
    see the doc comments) together with the literal fixtures of
    src/v2/pytests/test_converter.py;
  * the image comparison and fixture-driven render logic of
    src/pytests/test_compatibility.py;
  * the sizing-box and constructor logic of
    src/textext/gui/gui_gtk3.py.
-/

namespace TexText

/-! ### Preamble fixtures, src/v2/pytests/test_converter.py lines 3-48.
Braces inside string literals are written with the hex escapes \x7b and \x7d. -/

def preamble_0 : String := "\\documentclass[10pt]\x7barticle\x7d\n\\usepackage\x7bamsmath\x7d\n"

def preamble_0_result : String := "\\usepackage\x7bamsmath\x7d\n"

def preamble_1 : String := "\\documentclass[10pt]\n\x7barticle\x7d\n\\usepackage\x7bamsmath\x7d\n"

def preamble_1_result : String := "\\usepackage\x7bamsmath\x7d\n"

def preamble_2 : String := "\\documentclass[10pt]\n\x7barticle\n\x7d\n\\usepackage\x7bamsmath\x7d\n"

def preamble_2_result : String := "\\usepackage\x7bamsmath\x7d\n"

def preamble_3 : String := "\n   \\documentclass[10pt]\n\x7barticle\x7d\n\\usepackage\x7bamsmath\x7d\n"

def preamble_3_result : String := "   \n   \\usepackage\x7bamsmath\x7d\n"

def preamble_4 : String := "\\documentstyle[10pt]\x7barticle\x7d\n\\usepackage\x7bamsmath\x7d\n"

def preamble_4_result : String := "\\usepackage\x7bamsmath\x7d\n"

def preamble_5 : String := "\\usepackage\x7bamsmath\x7d\n"

def preamble_5_result : String := "\\usepackage\x7bamsmath\x7d\n"

/-! ### Preamble normalizer -/

/-- Opening curly brace character (written via its code point). -/
def lbrace : Char := Char.ofNat 123

/-- Closing curly brace character (written via its code point). -/
def rbrace : Char := Char.ofNat 125

/-- The modern declaration keyword, as a character list. -/
def kwClassL : List Char := "\\documentclass".data

/-- The legacy declaration keyword, as a character list. -/
def kwStyleL : List Char := "\\documentstyle".data

/-- The keyword opening the content line of every fixture. -/
def usepackageL : List Char := "\\usepackage".data

/-- The mandatory argument content of every declaration fixture. -/
def articleL : List Char := "article".data

/-- Substring occurrence test: `occurs needle hay` is true when `needle`
appears contiguously inside `hay`. -/
def occurs (needle : List Char) (hay : List Char) : Bool :=
  needle.isPrefixOf hay ||
    match hay with
    | [] => false
    | _ :: t => occurs needle t

/-- Drops characters up to and including the first closing square bracket,
the end of the bracketed options of a declaration; `none` when unterminated. -/
def dropToRBracket : List Char → Option (List Char)
  | [] => none
  | c :: rest => if c = ']' then some rest else dropToRBracket rest

/-- Scans past the mandatory brace-delimited argument, tracking nested
brace pairs, starting just after an opening brace at nesting `depth`.
Returns the characters after the matching closing brace, or `none`
when the group is unterminated. -/
def matchBraces : List Char → Nat → Option (List Char)
  | [], _ => none
  | c :: rest, depth =>
    if c = lbrace then matchBraces rest (depth + 1)
    else if c = rbrace then
      match depth with
      | 0 => none
      | 1 => some rest
      | d + 2 => matchBraces rest (d + 1)
    else matchBraces rest depth

/-- Consumes optional whitespace and the mandatory brace-delimited argument;
returns the characters after the matching closing brace. -/
def parseBrace (l : List Char) : Option (List Char) :=
  match l.dropWhile Char.isWhitespace with
  | [] => none
  | c :: rest => if c = lbrace then matchBraces rest 1 else none

/-- Consumes the optional bracketed options and the mandatory brace-delimited
argument following a declaration keyword. -/
def parseArg (l : List Char) : Option (List Char) :=
  match l.dropWhile Char.isWhitespace with
  | '[' :: rest =>
    match dropToRBracket rest with
    | none => none
    | some rest2 => parseBrace rest2
  | l2 => parseBrace l2

/-- Strips a leading declaration keyword (modern or legacy, treated
identically), returning the remaining characters. -/
def stripKeyword (l : List Char) : Option (List Char) :=
  if kwClassL.isPrefixOf l then some (l.drop kwClassL.length)
  else if kwStyleL.isPrefixOf l then some (l.drop kwStyleL.length)
  else none

/-- Parses a full declaration (keyword, optional bracketed options, mandatory
brace-delimited argument with nested-brace matching) and returns the
characters after the matching closing brace. -/
def parseDeclaration (l : List Char) : Option (List Char) :=
  match stripKeyword l with
  | none => none
  | some afterKw => parseArg afterKw

/-- Modelled from the spec: the implementation of
`TexToPdfConverter._remove_documentclass` (textext/converter.py) is not
among the provided sources, only its test is.  Following section 4.1 of the
spec, the normalizer scans for a leading top-level class/style declaration
(`\documentclass` or `\documentstyle`) preceded only by whitespace, with
optional bracketed options and a mandatory brace-delimited argument that may
span multiple lines, tracking nested brace pairs.  It removes the declaration
span from the leading backslash through the matching closing brace and
preserves every character before and after the span verbatim.  If no such
declaration exists (or its argument is unterminated), the text is returned
unchanged. -/
def remove_documentclass (s : String) : String :=
  match parseDeclaration (s.data.dropWhile Char.isWhitespace) with
  | none => s
  | some suffixChars =>
    String.mk (s.data.takeWhile Char.isWhitespace ++ suffixChars)

example : remove_documentclass preamble_0 = "\n\\usepackage\x7bamsmath\x7d\n" := by decide
example : remove_documentclass preamble_1 = "\n\\usepackage\x7bamsmath\x7d\n" := by decide
example : remove_documentclass preamble_2 = "\n\\usepackage\x7bamsmath\x7d\n" := by decide
example : remove_documentclass preamble_3 = "\n   \n\\usepackage\x7bamsmath\x7d\n" := by decide
example : remove_documentclass preamble_4 = "\n\\usepackage\x7bamsmath\x7d\n" := by decide
example : remove_documentclass preamble_5 = preamble_5 := by decide

/-! ### Image comparison harness, src/pytests/test_compatibility.py.

The module-level constant of line 31. -/

def RESULTS_INTO_TEMPDIR : Bool := true

/-- Filesystem abstraction for the `TempDirectory` resource: the list of
directories currently present. -/
structure FileSystem where
  dirs : List String
  deriving DecidableEq

/-- How the body of a `with TempDirectory(...)` block terminates. -/
inductive BodyOutcome
  | normal
  | exception
  deriving DecidableEq

/-- `TempDirectory.__enter__` (lines 40-48): with `RESULTS_INTO_TEMPDIR` a
fresh directory created by `tempfile.mkdtemp` is added; otherwise the fixed
`pytests_results/<suffix>` directory is created if missing and reused.
Returns the updated filesystem and the stored name. -/
def tempDirectory_enter (fs : FileSystem) (suffix : String) (freshName : String) :
    FileSystem × String :=
  if RESULTS_INTO_TEMPDIR then
    (⟨freshName :: fs.dirs⟩, freshName)
  else
    let dn := "pytests_results/" ++ suffix
    (if dn ∈ fs.dirs then fs else ⟨dn :: fs.dirs⟩, dn)

/-- `TempDirectory.__exit__` (lines 50-52): removes the stored directory
when a name was stored and `RESULTS_INTO_TEMPDIR` is set; runs regardless of
whether the body raised. -/
def tempDirectory_exit (fs : FileSystem) (name : Option String) : FileSystem :=
  match name with
  | none => fs
  | some n => if RESULTS_INTO_TEMPDIR then ⟨fs.dirs.erase n⟩ else fs

/-- One execution of a `with TempDirectory(suffix) as t:` block.  Python
calls `__exit__` both on normal completion of the body and on an exception
raised inside it; `__exit__` returns `None`, so an exception keeps
propagating (the outcome is returned unchanged). -/
def withTempDirectory (fs : FileSystem) (suffix freshName : String)
    (outcome : BodyOutcome) : FileSystem × BodyOutcome :=
  let (fs1, nm) := tempDirectory_enter fs suffix freshName
  let fs2 := tempDirectory_exit fs1 (some nm)
  (fs2, outcome)

/-- The size check of `images_are_same` (lines 98-114): true when the pair of
images is rejected with the "too different sizes" message.  `w1, h1` are the
dimensions of the first image, `w2, h2` of the second. -/
def size_check_fails (w1 h1 w2 h2 : Int) (size_abs_tol : Int) (size_rel_tol : ℚ) : Bool :=
  let dw := w2 - w1
  let dh := h2 - h1
  let w := min w2 w1
  let h := min h2 h1
  if dw > size_abs_tol ∨ dh > size_abs_tol ∨
      (dw : ℚ) > (w : ℚ) * size_rel_tol ∨ (dh : ℚ) > (h : ℚ) * size_rel_tol then
    true
  else
    false

/-- `images_are_same` (lines 79-151), embedded over the quantities it
branches on.  File existence, resizing and the external `compare` process are
abstracted: `returncode` is the process exit code and `stderr_as_int` the
result of parsing its stderr as an integer (`none` when parsing fails).
Messages are the fixed prefixes of the formatted Python messages.  When the
sizes differ (within tolerance) line 116-121 halves the absolute pixel
tolerance and the comparison dimensions (Python floor division). -/
def images_are_same (w1 h1 w2 h2 : Int) (size_abs_tol : Int) (size_rel_tol : ℚ)
    (pixel_diff_abs_tol : Int) (pixel_diff_rel_tol : ℚ)
    (returncode : Int) (stderr_as_int : Option Int) : Bool × String :=
  let dw := w2 - w1
  let dh := h2 - h1
  let w := min w2 w1
  let h := min h2 h1
  if size_check_fails w1 h1 w2 h2 size_abs_tol size_rel_tol then
    (false, "Images have too different sizes")
  else
    let tol := if dh ≠ 0 ∨ dw ≠ 0 then pixel_diff_abs_tol.fdiv 2 else pixel_diff_abs_tol
    let wc := if dh ≠ 0 ∨ dw ≠ 0 then w.fdiv 2 else w
    let hc := if dh ≠ 0 ∨ dw ≠ 0 then h.fdiv 2 else h
    if returncode = 0 ∨ returncode = 1 then
      match stderr_as_int with
      | none => (false, "Cannot parse compare output")
      | some diff_pixels =>
        if diff_pixels > tol then
          (false, "diff pixels exceed absolute tolerance")
        else if (diff_pixels : ℚ) > (wc : ℚ) * (hc : ℚ) * pixel_diff_rel_tol then
          (false, "diff pixels exceed relative tolerance")
        else
          (true, "diff pixels within tolerance")
    else
      (false, "compare returned an error code")

/-! ### Fixture-driven render options, `is_current_version_compatible`
lines 186-197. -/

/-- A non-empty render-check block of a fixture config: the required
`scale-is-preserved` flag and the optional `dpi`, `height` and
`render-area` keys (presence modelled by `Option`). -/
structure RenderCheck where
  scale_is_preserved : Bool
  dpi : Option Int := none
  height : Option Int := none
  render_area : Option String := none
  deriving DecidableEq

/-- Options eventually passed to `svg_to_png`. -/
structure RenderOptions where
  dpi : Option Int := none
  height : Option Int := none
  render_area : String
  deriving DecidableEq

/-- Lines 188-197: with an empty render-check block no options are set and
`svg_to_png` falls back to its own default render area "drawing"; otherwise
the `scale-is-preserved` flag selects dpi (default 90) or height (default
100), each branch first asserting that the other key is absent
(`.error "AssertionError"`). -/
def render_options_from_check : Option RenderCheck → Except String RenderOptions
  | none => .ok { dpi := none, height := none, render_area := "drawing" }
  | some cr =>
    if cr.scale_is_preserved then
      match cr.height with
      | some _ => .error "AssertionError"
      | none => .ok { dpi := some (cr.dpi.getD 90), height := none,
                      render_area := cr.render_area.getD "document" }
    else
      match cr.dpi with
      | some _ => .error "AssertionError"
      | none => .ok { dpi := none, height := some (cr.height.getD 100),
                      render_area := cr.render_area.getD "document" }

/-- The two `svg_to_png` calls of `is_current_version_compatible` (lines 199
and 239), both using the options derived from the config; a failed assertion
short-circuits before any render call happens. -/
def compat_render_calls (cr : Option RenderCheck) : Except String (List RenderOptions) :=
  match render_options_from_check cr with
  | .error e => .error e
  | .ok opts => .ok [opts, opts]

/-! ### GUI models, src/textext/gui/gui_gtk3.py. -/

/-- Modelled from the spec: the command identifiers of
`textext.utils.environment.Cmds` (file absent from the sources).  The spec
describes the compiler command identifier as an enum over supported engines;
the GUI file names the TeX commands PDFLATEX, XELATEX, LUALATEX and TYPST. -/
def Cmds.PDFLATEX : String := "pdflatex"

def Cmds.XELATEX : String := "xelatex"

def Cmds.LUALATEX : String := "lualatex"

def Cmds.TYPST : String := "typst"

/-- Modelled from the spec: the supported TeX compiler commands
(`Cmds.ALL_TEX` of the absent textext/utils/environment.py). -/
def Cmds.ALL_TEX : List String := [Cmds.PDFLATEX, Cmds.XELATEX, Cmds.LUALATEX, Cmds.TYPST]

/-- Modelled from the spec: the round-trip node metadata
(`textext.elements.TexTextEleMetaData`, file absent from the sources) as
used by the GUI: source text, preamble reference, compiler command
identifier, sizing mode (`use_font_size` selects font-size mode, otherwise
scale-factor mode, with the two values), and the alignment anchor label. -/
structure TexTextEleMetaData where
  text : String := ""
  preamble : String := ""
  tex_command : String := "pdflatex"
  use_font_size : Bool := false
  scale_factor : ℚ := 1
  font_size_pt : ℚ := 10
  alignment : String := "middle center"
  deriving DecidableEq

/-- The configuration fields of `SettingsTexText` read by
`TexTextGuiBase.__init__` (modelled from the spec; settings.py is absent
from the sources). -/
structure SettingsTexText where
  scale_factor : ℚ := 1
  font_size_pt : ℚ := 10
  deriving DecidableEq

/-- The state established by `TexTextGuiBase.__init__`
(src/textext/gui/gui_gtk3.py lines 131-153). -/
structure GuiBaseState where
  textext_version : String
  meta_data : TexTextEleMetaData
  global_scale_factor : ℚ
  global_pdf_font_size : ℚ
  deriving DecidableEq

/-- `TexTextGuiBase.__init__` (lines 131-153): stores the version, config
values, and the node metadata, first replacing a compiler command that is
not in `Cmds.ALL_TEX` by `Cmds.PDFLATEX` (lines 145-146).  The constructor
is total: it completes normally for every metadata value. -/
def TexTextGuiBase_init (version_str : String) (node_meta_data : TexTextEleMetaData)
    (config : SettingsTexText) : GuiBaseState :=
  let md :=
    if node_meta_data.tex_command ∈ Cmds.ALL_TEX then node_meta_data
    else { node_meta_data with tex_command := Cmds.PDFLATEX }
  { textext_version := version_str
    meta_data := md
    global_scale_factor := config.scale_factor
    global_pdf_font_size := config.font_size_pt }

/-- The widget state produced by the sizing box section of
`TexTextGuiGTK3.show`: which radio button is active (the two buttons form a
radio group, so activating one deactivates the other), which adjustment
received a value, and the sensitivity of the six sizing controls. -/
structure SizingBoxState where
  rb_scale_active : Bool
  rb_fontsize_active : Bool
  adj_scale_value : Option ℚ
  adj_fontsize_value : Option ℚ
  sbn_scale_sensitive : Bool
  btn_scale_reset_sensitive : Bool
  btn_scale_previous_sensitive : Bool
  sbn_fontsize_sensitive : Bool
  btn_fontsize_reset_sensitive : Bool
  btn_fontsize_previous_sensitive : Bool
  deriving DecidableEq

/-- The sizing box section of `TexTextGuiGTK3.show`
(src/textext/gui/gui_gtk3.py lines 200-222), transcribed branch by branch:
when `use_font_size` is set the code activates `rb_scale`, writes
`scale_factor` into `adj_scale`, enables the three scale controls and
disables the three font-size controls; otherwise it activates `rb_fontsize`,
writes `font_size_pt` into `adj_fontsize`, enables the font-size controls
and disables the scale controls. -/
def show_sizing_box (md : TexTextEleMetaData) : SizingBoxState :=
  if md.use_font_size then
    { rb_scale_active := true
      rb_fontsize_active := false
      adj_scale_value := some md.scale_factor
      adj_fontsize_value := none
      sbn_scale_sensitive := true
      btn_scale_reset_sensitive := true
      btn_scale_previous_sensitive := true
      sbn_fontsize_sensitive := false
      btn_fontsize_reset_sensitive := false
      btn_fontsize_previous_sensitive := false }
  else
    { rb_scale_active := false
      rb_fontsize_active := true
      adj_scale_value := none
      adj_fontsize_value := some md.font_size_pt
      sbn_scale_sensitive := false
      btn_scale_reset_sensitive := false
      btn_scale_previous_sensitive := false
      sbn_fontsize_sensitive := true
      btn_fontsize_reset_sensitive := true
      btn_fontsize_previous_sensitive := true }

/-! ### Helper lemmas about substring occurrence -/

theorem occurs_false_head {n hay : List Char} (h : occurs n hay = false) :
    n.isPrefixOf hay = false := by
  unfold occurs at h
  rcases hay with _ | ⟨c, t⟩ <;> simp_all

theorem occurs_false_tail {n : List Char} {c : Char} {t : List Char}
    (h : occurs n (c :: t) = false) : occurs n t = false := by
  unfold occurs at h
  simp_all

theorem occurs_false_dropWhile (p : Char → Bool) {n : List Char} :
    ∀ {l : List Char}, occurs n l = false → occurs n (l.dropWhile p) = false := by
  intro l
  induction l with
  | nil => intro h; simpa using h
  | cons c t ih =>
    intro h
    rw [List.dropWhile_cons]
    by_cases hc : p c = true
    · rw [if_pos hc]; exact ih (occurs_false_tail h)
    · rw [if_neg hc]; exact h

theorem stripKeyword_none {l : List Char} (h1 : occurs kwClassL l = false)
    (h2 : occurs kwStyleL l = false) : stripKeyword l = none := by
  have p1 : kwClassL.isPrefixOf l = false := occurs_false_head h1
  have p2 : kwStyleL.isPrefixOf l = false := occurs_false_head h2
  simp [stripKeyword, p1, p2]

theorem remove_documentclass_eq_self {s : String}
    (h1 : occurs kwClassL s.data = false) (h2 : occurs kwStyleL s.data = false) :
    remove_documentclass s = s := by
  have hk : stripKeyword (s.data.dropWhile Char.isWhitespace) = none :=
    stripKeyword_none (occurs_false_dropWhile _ h1) (occurs_false_dropWhile _ h2)
  simp [remove_documentclass, parseDeclaration, hk]

/-! ### Claim theorems: preamble normalizer -/

/-- C1 counterexample: on fixture preamble_3 the verbatim span removal the
claim describes (remove the declaration from the leading backslash through
the matching closing brace, keep everything else unchanged, in particular
the leading blank line) does not produce the output that the repository's
own test (src/v2/pytests/test_converter.py line 55) asserts for
`_remove_documentclass(preamble_3)`, namely preamble_3_result.  The claimed
behavior and the test-pinned behavior are therefore incompatible at this
concrete input. -/
theorem remove_documentclass_preamble_3_counterexample :
    remove_documentclass preamble_3 ≠ preamble_3_result := by decide

/-- C1 amended: the test pins the output on preamble_3 to preamble_3_result,
which does remove the declaration (no declaration keyword and no argument
content remains, the usepackage line is retained), but reflows the
surrounding whitespace instead of preserving it verbatim: the output starts
with the three-space indentation followed by a newline and an indented
usepackage line, while the verbatim span removal of the spec would keep the
leading blank line, yielding a different string. -/
theorem remove_documentclass_preamble_3_amended :
    remove_documentclass preamble_3 = "\n   \n\\usepackage\x7bamsmath\x7d\n" ∧
    preamble_3_result = "   " ++ "\n   " ++ "\\usepackage\x7bamsmath\x7d\n" ∧
    occurs kwClassL preamble_3_result.data = false ∧
    occurs articleL preamble_3_result.data = false ∧
    occurs usepackageL preamble_3_result.data = true := by decide

/-- A preamble with two adjacent declarations: removing the first uncovers
the second, so one more application removes again. -/
def double_decl : String := "\\documentclass\x7ba\x7d\\documentclass\x7bb\x7d"

/-- C4 counterexample: normalization is not idempotent for arbitrary
preamble text; on a preamble holding two adjacent declarations the first
application removes only the first declaration and the second application
removes the uncovered one, so applying normalize twice differs from
applying it once. -/
theorem remove_documentclass_not_idem :
    remove_documentclass (remove_documentclass double_decl) ≠
      remove_documentclass double_decl := by decide

/-- C4 amended: normalization is idempotent for every preamble whose
normalized output no longer holds a declaration keyword — in particular for
each test fixture; on output free of both keywords the normalizer is the
identity, so re-applying it changes nothing. -/
theorem remove_documentclass_idem_of_clean_output (p : String)
    (h1 : occurs kwClassL (remove_documentclass p).data = false)
    (h2 : occurs kwStyleL (remove_documentclass p).data = false) :
    remove_documentclass (remove_documentclass p) = remove_documentclass p :=
  remove_documentclass_eq_self h1 h2

/-- C4 witness: the idempotence theorem applied to fixture preamble_0. -/
theorem remove_documentclass_idem_witness :
    occurs kwClassL (remove_documentclass preamble_0).data = false ∧
    occurs kwStyleL (remove_documentclass preamble_0).data = false ∧
    remove_documentclass (remove_documentclass preamble_0) =
      remove_documentclass preamble_0 :=
  ⟨by decide, by decide,
   remove_documentclass_idem_of_clean_output preamble_0 (by decide) (by decide)⟩

/-- C7: on fixture preamble_0 (single-line declaration followed by content
on the next line) and on fixtures preamble_1 and preamble_2 (mandatory
argument split over two lines, closing brace alone on its own line) the
normalizer removes the entire declaration together with its multi-line
argument — no declaration keyword and no argument content remains — and the
following usepackage line is retained in the output. -/
theorem remove_documentclass_multiline_fixtures :
    (remove_documentclass preamble_0 = "\n\\usepackage\x7bamsmath\x7d\n" ∧
      occurs kwClassL (remove_documentclass preamble_0).data = false ∧
      occurs articleL (remove_documentclass preamble_0).data = false ∧
      occurs usepackageL (remove_documentclass preamble_0).data = true) ∧
    (remove_documentclass preamble_1 = "\n\\usepackage\x7bamsmath\x7d\n" ∧
      occurs kwClassL (remove_documentclass preamble_1).data = false ∧
      occurs articleL (remove_documentclass preamble_1).data = false ∧
      occurs usepackageL (remove_documentclass preamble_1).data = true) ∧
    (remove_documentclass preamble_2 = "\n\\usepackage\x7bamsmath\x7d\n" ∧
      occurs kwClassL (remove_documentclass preamble_2).data = false ∧
      occurs articleL (remove_documentclass preamble_2).data = false ∧
      occurs usepackageL (remove_documentclass preamble_2).data = true) := by decide

/-- C8: the legacy keyword is handled identically to the modern one — the
normalizer maps fixture preamble_4 (documentstyle) to exactly the output it
produces for fixture preamble_0 (documentclass), the legacy declaration is
removed, the usepackage line is retained, and the two fixture expectations
recorded in the test agree as well. -/
theorem remove_documentclass_documentstyle_identical :
    remove_documentclass preamble_4 = remove_documentclass preamble_0 ∧
    occurs kwStyleL (remove_documentclass preamble_4).data = false ∧
    occurs usepackageL (remove_documentclass preamble_4).data = true ∧
    preamble_4_result = preamble_0_result := by decide

/-! ### Claim theorems: GUI -/

/-- Node metadata in font-size sizing mode, the failing input of C2. -/
def md_font_size_mode : TexTextEleMetaData :=
  { use_font_size := true, scale_factor := 2, font_size_pt := 12 }

/-- C2 (code bug evidence): evaluating the sizing box logic of
`TexTextGuiGTK3.show` on metadata in font-size mode (`use_font_size` set)
shows the code activating the scale radio button, enabling the scale-factor
controls and disabling all font-size controls — the opposite group of the
sizing mode recorded in the metadata, contradicting the claim (and the
evident intent of the widget names); exactly one group is active, but it is
the wrong one, and the font-size adjustment never receives its value. -/
theorem show_sizing_box_font_size_mode_eval :
    (show_sizing_box md_font_size_mode).rb_scale_active = true ∧
    (show_sizing_box md_font_size_mode).rb_fontsize_active = false ∧
    (show_sizing_box md_font_size_mode).sbn_scale_sensitive = true ∧
    (show_sizing_box md_font_size_mode).sbn_fontsize_sensitive = false ∧
    (show_sizing_box md_font_size_mode).btn_fontsize_reset_sensitive = false ∧
    (show_sizing_box md_font_size_mode).btn_fontsize_previous_sensitive = false ∧
    (show_sizing_box md_font_size_mode).adj_fontsize_value = none ∧
    (show_sizing_box md_font_size_mode).adj_scale_value =
      some md_font_size_mode.scale_factor := by decide

/-- C9: for every node metadata whose compiler command identifier is not
among the supported TeX commands, `TexTextGuiBase.__init__` substitutes the
default command pdflatex into the metadata; the constructor is a total
function, so construction completes normally with default settings. -/
theorem gui_base_init_defaults_unknown_command (v : String) (md : TexTextEleMetaData)
    (cfg : SettingsTexText) (h : md.tex_command ∉ Cmds.ALL_TEX) :
    (TexTextGuiBase_init v md cfg).meta_data.tex_command = Cmds.PDFLATEX := by
  simp [TexTextGuiBase_init, h]

/-- Metadata carrying an unrecognized compiler command identifier. -/
def md_unknown_command : TexTextEleMetaData := { tex_command := "latex" }

/-- C9 witness: the constructor theorem applied to metadata whose command
identifier "latex" is not a supported TeX command. -/
theorem gui_base_init_defaults_witness :
    md_unknown_command.tex_command ∉ Cmds.ALL_TEX ∧
    (TexTextGuiBase_init "2.0.0" md_unknown_command {}).meta_data.tex_command =
      Cmds.PDFLATEX :=
  ⟨by decide,
   gui_base_init_defaults_unknown_command "2.0.0" md_unknown_command {} (by decide)⟩

/-! ### Claim theorems: test-harness resource handling and render options -/

/-- C3: for every execution of a `TempDirectory` context block — whatever
the starting filesystem, the suffix, the fresh directory chosen by mkdtemp
and whether the body completes normally or raises — the temporary working
directory created on entry is removed again on exit, the filesystem is
restored exactly, and an exception raised in the body still propagates. -/
theorem temp_directory_released_on_every_exit (fs : FileSystem)
    (suffix freshName : String) (outcome : BodyOutcome)
    (hfresh : freshName ∉ fs.dirs) :
    (withTempDirectory fs suffix freshName outcome).1 = fs ∧
    freshName ∉ (withTempDirectory fs suffix freshName outcome).1.dirs ∧
    (withTempDirectory fs suffix freshName outcome).2 = outcome := by
  obtain ⟨dirs⟩ := fs
  simp only [withTempDirectory, tempDirectory_enter, tempDirectory_exit,
    RESULTS_INTO_TEMPDIR, if_true, List.erase_cons_head]
  exact ⟨trivial, hfresh, trivial⟩

/-- An example filesystem for the C3 witness. -/
def fs_example : FileSystem := ⟨["projects", "home"]⟩

/-- C3 witness: the release theorem applied to a concrete filesystem, a
fresh temporary directory and a body that raises an exception. -/
theorem temp_directory_released_witness :
    "tmp_xyz" ∉ fs_example.dirs ∧
    ((withTempDirectory fs_example "sfx" "tmp_xyz" BodyOutcome.exception).1 =
        fs_example ∧
      "tmp_xyz" ∉
        (withTempDirectory fs_example "sfx" "tmp_xyz" BodyOutcome.exception).1.dirs ∧
      (withTempDirectory fs_example "sfx" "tmp_xyz" BodyOutcome.exception).2 =
        BodyOutcome.exception) :=
  ⟨by decide,
   temp_directory_released_on_every_exit fs_example "sfx" "tmp_xyz"
     BodyOutcome.exception (by decide)⟩

/-- C6: for every non-empty render-check block the harness enforces the
dpi/height mutual exclusivity keyed on the scale-is-preserved flag: with the
flag set, a present height key makes the assertion fail before any render
call happens, otherwise both renders use dpi (default 90); with the flag
unset, a present dpi key makes the assertion fail before any render call,
otherwise both renders use height (default 100). -/
theorem render_check_mutual_exclusion (cr : RenderCheck) :
    (cr.scale_is_preserved = true → cr.height = none →
      compat_render_calls (some cr) =
        .ok [{ dpi := some (cr.dpi.getD 90), height := none,
               render_area := cr.render_area.getD "document" },
             { dpi := some (cr.dpi.getD 90), height := none,
               render_area := cr.render_area.getD "document" }]) ∧
    (cr.scale_is_preserved = true → cr.height ≠ none →
      compat_render_calls (some cr) = .error "AssertionError") ∧
    (cr.scale_is_preserved = false → cr.dpi = none →
      compat_render_calls (some cr) =
        .ok [{ dpi := none, height := some (cr.height.getD 100),
               render_area := cr.render_area.getD "document" },
             { dpi := none, height := some (cr.height.getD 100),
               render_area := cr.render_area.getD "document" }]) ∧
    (cr.scale_is_preserved = false → cr.dpi ≠ none →
      compat_render_calls (some cr) = .error "AssertionError") := by
  obtain ⟨sip, dpi, height, ra⟩ := cr
  cases sip <;> cases dpi <;> cases height <;>
    simp [compat_render_calls, render_options_from_check]

/-- A config violating the mutual-exclusivity rule: scale is preserved yet a
height key is present. -/
def render_check_bad : RenderCheck := { scale_is_preserved := true, height := some 100 }

/-- C6 witness: the mutual-exclusivity theorem applied to a violating
config, which is rejected by the assertion before any rendering. -/
theorem render_check_mutual_exclusion_witness :
    render_check_bad.scale_is_preserved = true ∧
    render_check_bad.height ≠ none ∧
    compat_render_calls (some render_check_bad) = .error "AssertionError" :=
  ⟨rfl, by decide,
   (render_check_mutual_exclusion render_check_bad).2.1 rfl (by decide)⟩

/-! ### Claim theorems: image comparison -/

/-- C5 counterexample: with the tolerances used by the harness
(pixel_diff_abs_tol 50, pixel_diff_rel_tol 1/1000, size tolerances 10 and
1/200), images of 400x400 and 401x400 pixels pass the size check, the
compare process exits with code 0 and reports 50 differing pixels — a count
within both claimed tolerances (50 ≤ 50 and 50 ≤ 400*400/1000 = 160) — yet
`images_are_same` returns False: because the sizes differ, line 118 first
halves the absolute tolerance to 25 (and the dimensions to 200x200), so the
claimed if-and-only-if characterization fails at this input. -/
theorem images_are_same_halving_counterexample :
    (50 : Int) ≤ 50 ∧
    (50 : ℚ) ≤ (400 : ℚ) * 400 * (1 / 1000) ∧
    size_check_fails 400 400 401 400 10 (1 / 200) = false ∧
    images_are_same 400 400 401 400 10 (1 / 200) 50 (1 / 1000) 0 (some 50) =
      (false, "diff pixels exceed absolute tolerance") := by
  have hsc : size_check_fails 400 400 401 400 10 (1 / 200) = false := by
    norm_num [size_check_fails, min_def]
  have hfd : (50 : Int).fdiv 2 = 25 := by decide
  refine ⟨by norm_num, by norm_num, hsc, ?_⟩
  simp only [images_are_same, hsc]
  norm_num [hfd]

/-- C5 amended: assuming the compare process exits with return code 0 or 1,
its stderr parses as an integer pixel count, the size check passes, and —
the amendment — the two images have exactly equal dimensions (otherwise the
absolute tolerance and the compared dimensions are first halved),
`images_are_same` returns True if and only if the reported count is at most
pixel_diff_abs_tol and at most width*height*pixel_diff_rel_tol; and every
outcome carries a non-empty diagnostic message. -/
theorem images_are_same_tol_equal_sizes (wd ht sat pat : Int) (srt prt : ℚ)
    (rc dp : Int) (hrc : rc = 0 ∨ rc = 1) (hsat : 0 ≤ sat)
    (hw : 0 ≤ (wd : ℚ) * srt) (hh : 0 ≤ (ht : ℚ) * srt) :
    ((images_are_same wd ht wd ht sat srt pat prt rc (some dp)).1 = true ↔
      dp ≤ pat ∧ (dp : ℚ) ≤ (wd : ℚ) * (ht : ℚ) * prt) ∧
    (images_are_same wd ht wd ht sat srt pat prt rc (some dp)).2 ≠ "" := by
  have hsc : size_check_fails wd ht wd ht sat srt = false := by
    have hcond : ¬(wd - wd > sat ∨ ht - ht > sat ∨
        ((wd - wd : Int) : ℚ) > ((min wd wd : Int) : ℚ) * srt ∨
        ((ht - ht : Int) : ℚ) > ((min ht ht : Int) : ℚ) * srt) := by
      push_neg
      refine ⟨by omega, by omega, ?_, ?_⟩
      · simpa using hw
      · simpa using hh
    simp only [size_check_fails, if_neg hcond]
  have hred : images_are_same wd ht wd ht sat srt pat prt rc (some dp) =
      if dp > pat then (false, "diff pixels exceed absolute tolerance")
      else if (dp : ℚ) > (wd : ℚ) * (ht : ℚ) * prt then
        (false, "diff pixels exceed relative tolerance")
      else (true, "diff pixels within tolerance") := by
    simp [images_are_same, hsc, hrc, sub_self, min_self]
  rw [hred]
  constructor
  · split_ifs with h1 h2
    · constructor
      · intro hfalse; exact absurd hfalse (by simp)
      · intro hconj; exact absurd hconj.1 (not_le.mpr h1)
    · constructor
      · intro hfalse; exact absurd hfalse (by simp)
      · intro hconj; exact absurd hconj.2 (not_le.mpr h2)
    · constructor
      · intro _; exact ⟨not_lt.mp h1, not_lt.mp h2⟩
      · intro _; rfl
  · split_ifs <;> simp

/-- C5 witness: the tolerance characterization applied to two 100x100
images, compare exit code 0 and a reported count of 3 differing pixels. -/
theorem images_are_same_tol_witness :
    ((0 : Int) = 0 ∨ (0 : Int) = 1) ∧ (0 : Int) ≤ 10 ∧
    (0 : ℚ) ≤ (100 : ℚ) * (1 / 200) ∧
    (((images_are_same 100 100 100 100 10 (1 / 200) 50 (1 / 1000) 0
          (some 3)).1 = true ↔
        (3 : Int) ≤ 50 ∧ (3 : ℚ) ≤ (100 : ℚ) * (100 : ℚ) * (1 / 1000)) ∧
      (images_are_same 100 100 100 100 10 (1 / 200) 50 (1 / 1000) 0
          (some 3)).2 ≠ "") :=
  ⟨Or.inl rfl, by norm_num, by norm_num,
   images_are_same_tol_equal_sizes 100 100 10 50 (1 / 200) (1 / 1000) 0 3
     (Or.inl rfl) (by norm_num) (by norm_num) (by norm_num)⟩

/-- After a successful size check and stderr parse, the result of
`images_are_same` is one of the three pixel-count outcomes, none of which
carries the size-failure message. -/
theorem compare_leaves_snd_ne (dp tol : Int) (x : ℚ) :
    ((if dp > tol then
        ((false, "diff pixels exceed absolute tolerance") : Bool × String)
      else if (dp : ℚ) > x then (false, "diff pixels exceed relative tolerance")
      else (true, "diff pixels within tolerance")).2 ≠
      "Images have too different sizes") := by
  split_ifs <;> decide

/-- C10: the size-difference check of `images_are_same` is one-sided — for
every pair of images whose second image is no wider and no taller than the
first (and nonnegative dimensions and tolerances, as always hold: the
defaults are 10 and 1/200), the differences are compared as signed values,
so the check never fails and the "Images have too different sizes" outcome
is never returned no matter how much smaller the second image is. -/
theorem size_check_one_sided (w1 h1 w2 h2 sat : Int) (srt : ℚ) (pat : Int)
    (prt : ℚ) (rc : Int) (sp : Option Int)
    (hw : w2 ≤ w1) (hh : h2 ≤ h1) (hw2 : 0 ≤ w2) (hh2 : 0 ≤ h2)
    (hsat : 0 ≤ sat) (hsrt : 0 ≤ srt) :
    size_check_fails w1 h1 w2 h2 sat srt = false ∧
    (images_are_same w1 h1 w2 h2 sat srt pat prt rc sp).2 ≠
      "Images have too different sizes" := by
  have hsc : size_check_fails w1 h1 w2 h2 sat srt = false := by
    have hwq : ((w2 - w1 : Int) : ℚ) ≤ ((min w2 w1 : Int) : ℚ) * srt := by
      have h0 : ((w2 - w1 : Int) : ℚ) ≤ 0 := by exact_mod_cast sub_nonpos.mpr hw
      have h1' : (0 : ℚ) ≤ ((min w2 w1 : Int) : ℚ) * srt := by
        apply mul_nonneg _ hsrt
        have : (0 : Int) ≤ min w2 w1 := le_min hw2 (le_trans hw2 hw)
        exact_mod_cast this
      linarith
    have hhq : ((h2 - h1 : Int) : ℚ) ≤ ((min h2 h1 : Int) : ℚ) * srt := by
      have h0 : ((h2 - h1 : Int) : ℚ) ≤ 0 := by exact_mod_cast sub_nonpos.mpr hh
      have h1' : (0 : ℚ) ≤ ((min h2 h1 : Int) : ℚ) * srt := by
        apply mul_nonneg _ hsrt
        have : (0 : Int) ≤ min h2 h1 := le_min hh2 (le_trans hh2 hh)
        exact_mod_cast this
      linarith
    have hcond : ¬(w2 - w1 > sat ∨ h2 - h1 > sat ∨
        ((w2 - w1 : Int) : ℚ) > ((min w2 w1 : Int) : ℚ) * srt ∨
        ((h2 - h1 : Int) : ℚ) > ((min h2 h1 : Int) : ℚ) * srt) := by
      push_neg
      exact ⟨by omega, by omega, hwq, hhq⟩
    simp only [size_check_fails, if_neg hcond]
  refine ⟨hsc, ?_⟩
  simp only [images_are_same, hsc, Bool.false_eq_true, if_false]
  by_cases hrc : rc = 0 ∨ rc = 1
  · rw [if_pos hrc]
    rcases sp with _ | dp
    · show ((false, "Cannot parse compare output") : Bool × String).2 ≠
        "Images have too different sizes"
      decide
    · exact compare_leaves_snd_ne dp _ _
  · rw [if_neg hrc]
    show ((false, "compare returned an error code") : Bool × String).2 ≠
      "Images have too different sizes"
    decide

/-- C10 witness: the one-sided size check theorem applied to a 100x50 first
image and a 1x1 second image with the default size tolerances. -/
theorem size_check_one_sided_witness :
    (1 : Int) ≤ 100 ∧ (1 : Int) ≤ 50 ∧ (0 : Int) ≤ 1 ∧ (0 : Int) ≤ 10 ∧
    (0 : ℚ) ≤ 1 / 200 ∧
    (size_check_fails 100 50 1 1 10 (1 / 200) = false ∧
      (images_are_same 100 50 1 1 10 (1 / 200) 0 0 2 none).2 ≠
        "Images have too different sizes") :=
  ⟨by norm_num, by norm_num, by norm_num, by norm_num, by norm_num,
   size_check_one_sided 100 50 1 1 10 (1 / 200) 0 0 2 none (by norm_num)
     (by norm_num) (by norm_num) (by norm_num) (by norm_num) (by norm_num)⟩

end TexText
